import Mathlib

/-!
# Verification of the soccer match scheduling and deduplication engine

Shallow embedding of the core logic of the `soccer_data_scraper` repository:

* `scraper/totalcorner_spider.py` — `parse_match_datetime`, `parse_upcoming_matches`,
  `parse_match_statistics`;
* `utils/date_utils.py` — `calculate_collection_time`;
* `lambda_functions/schedule_updater.py` — `lambda_handler` (deduplication, sorting,
  persistence, EventBridge rule registration) and `create_stats_collection_rule`;
* `storage/dynamodb.py` — `save_scheduled_matches`;
* `models/match_data.py` — `MatchInfo.to_dict` / `MatchInfo.from_dict`.

Python strings are modeled as Lean `String`s, with every manipulation written as a
structurally recursive function over `String.data` so that concrete instances reduce
in the kernel.  Python `datetime.datetime` values are modeled by the `PyDateTime`
structure below; calls to `datetime.datetime.now()` become explicit parameters of the
embedded functions.  Fallible Python code (exceptions, `None` returns) is modeled
with `Option`.
-/

namespace Soccer

/-! ## Time model

`PyDateTime` models `datetime.datetime`: a tuple of calendar fields.  Python years
range over 1..9999; months 1..12, etc.  Comparison of `datetime` objects is
field-lexicographic, which for constructor-valid values coincides with comparing the
encoding below (the radices strictly bound each valid field). -/

structure PyDateTime where
  year : Nat
  month : Nat
  day : Nat
  hour : Nat
  minute : Nat
  second : Nat := 0
  microsecond : Nat := 0
deriving DecidableEq, Repr

/-- Total encoding of a `PyDateTime` onto `Nat`, strictly monotone with respect to
Python's field-lexicographic `datetime` comparison on constructor-valid values. -/
def PyDateTime.enc (t : PyDateTime) : Nat :=
  t.microsecond + 1000000 * (t.second + 60 * (t.minute + 60 * (t.hour + 24 *
    (t.day + 32 * (t.month + 13 * t.year)))))

/-- Embedding of Python `<` on `datetime` objects. -/
def PyDateTime.ltb (a b : PyDateTime) : Bool :=
  a.enc < b.enc

/-- Embedding of Python `<=` on `datetime` objects. -/
def PyDateTime.leb (a b : PyDateTime) : Bool :=
  a.enc ≤ b.enc

/-- Leap year rule used by Python's `datetime` (proleptic Gregorian). -/
def isLeapYear (y : Nat) : Bool :=
  y % 4 == 0 && (y % 100 != 0 || y % 400 == 0)

/-- Number of days of month `m` of year `y` in the proleptic Gregorian calendar. -/
def daysInMonth (y m : Nat) : Nat :=
  if m = 2 then (if isLeapYear y then 29 else 28)
  else if m = 4 ∨ m = 6 ∨ m = 9 ∨ m = 11 then 30
  else 31

/-- Validity check enforced by the `datetime.datetime(year, month, day, hour, minute)`
constructor: out-of-range fields raise `ValueError`. -/
def validDateTime (y m d h mi : Nat) : Bool :=
  1 ≤ y && y ≤ 9999 && 1 ≤ m && m ≤ 12 && 1 ≤ d && d ≤ daysInMonth y m &&
    h ≤ 23 && mi ≤ 59

/-! ## Character-level string helpers

These model the Python string primitives used by the source, restricted to ASCII
(the scraped inputs are ASCII; Python's `\d`, `\s` and `str.strip` additionally
accept some Unicode characters, which no claim depends on). -/

/-- Value of an ASCII digit character. -/
def digitVal (c : Char) : Nat := c.toNat - 48

/-- Model of Python `str.strip()`: removes leading and trailing whitespace. -/
def pyStrip (cs : List Char) : List Char :=
  ((cs.dropWhile Char.isWhitespace).reverse.dropWhile Char.isWhitespace).reverse

/-- Model of Python substring containment `pat in hay`. -/
def containsSub (hay pat : List Char) : Bool :=
  if pat.isPrefixOf hay then true
  else
    match hay with
    | [] => false
    | _ :: t => containsSub t pat

/-- Model of Python `str.lower()` (ASCII range). -/
def pyLower (s : String) : String :=
  ⟨s.data.map Char.toLower⟩

/-- Model of Python `needle in hay` on strings. -/
def pyIn (needle hay : String) : Bool :=
  containsSub hay.data needle.data

/-- Model of Python `s.split("/")`: splits on every `/`, keeping empty pieces. -/
def splitSlash : List Char → List (List Char)
  | [] => [[]]
  | c :: rest =>
    let r := splitSlash rest
    if c = '/' then [] :: r
    else
      match r with
      | [] => [[c]]
      | p :: ps => (c :: p) :: ps

/-- Model of Python `s.split("/")[-1]` (a `split` result is never empty, so the
`[-1]` index never raises). -/
def lastSlashComponent (s : String) : String :=
  ⟨((splitSlash s.data).getLast?).getD []⟩

/-- Parses a nonempty list of ASCII digits into its value; `none` otherwise. -/
def digitsVal (cs : List Char) : Option Nat :=
  if cs ≠ [] ∧ cs.all Char.isDigit then
    some (cs.foldl (fun acc c => 10 * acc + digitVal c) 0)
  else none

/-- Model of Python `int(s)`: strips whitespace, accepts an optional sign followed by
one or more digits, raises `ValueError` (here `none`) otherwise. -/
def pyInt (s : String) : Option Int :=
  match pyStrip s.data with
  | '-' :: ds => (digitsVal ds).map (fun n => -(n : Int))
  | '+' :: ds => (digitsVal ds).map (fun n => (n : Int))
  | ds => (digitsVal ds).map (fun n => (n : Int))

/-! ## DateTimeResolver: `TotalCornerSpider.parse_match_datetime`

The source applies `re.match(r"(\d{2})/(\d{2})\s+(\d{2}):(\d{2})", date_str.strip())`.
`re.match` anchors at the start only, so trailing characters after the `HH:MM` group
are accepted.  The matcher below is a direct implementation of that regular
expression; maximal munch is equivalent to the regex's backtracking here because the
character classes at each boundary are disjoint. -/

/-- Matches `\d{2}` at the head of the list, returning its value and the rest. -/
def matchTwoDigits : List Char → Option (Nat × List Char)
  | a :: b :: rest =>
    if a.isDigit && b.isDigit then some (10 * digitVal a + digitVal b, rest)
    else none
  | _ => none

/-- Matches a literal character at the head of the list. -/
def matchLit (c : Char) : List Char → Option (List Char)
  | x :: rest => if x = c then some rest else none
  | [] => none

/-- Matches `\s+` (one or more whitespace characters) at the head of the list. -/
def matchWs1 (cs : List Char) : Option (List Char) :=
  if (cs.takeWhile Char.isWhitespace).isEmpty then none
  else some (cs.dropWhile Char.isWhitespace)

/-- The spider's anchored date regex `(\d{2})/(\d{2})\s+(\d{2}):(\d{2})`, returning
the four parsed groups and the unconsumed rest of the input. -/
def reMatchDateCore (cs : List Char) : Option ((Nat × Nat × Nat × Nat) × List Char) := do
  let (mo, cs) ← matchTwoDigits cs
  let cs ← matchLit '/' cs
  let (dy, cs) ← matchTwoDigits cs
  let cs ← matchWs1 cs
  let (hr, cs) ← matchTwoDigits cs
  let cs ← matchLit ':' cs
  let (mi, cs) ← matchTwoDigits cs
  some ((mo, dy, hr, mi), cs)

/-- Embedding of `TotalCornerSpider.parse_match_datetime`.

The Python method takes only `date_str` and reads `datetime.datetime.now()`
internally (line 197 of `totalcorner_spider.py`); that hidden clock read is made
explicit here as the `current_date` parameter.  A failed regex match returns `None`;
a `ValueError` from the `datetime` constructor (invalid calendar date) is caught by
the surrounding `try`/`except` and also yields `None`. -/
def parse_match_datetime (date_str : String) (current_date : PyDateTime) :
    Option PyDateTime :=
  match reMatchDateCore (pyStrip date_str.data) with
  | none => none
  | some ((month, day, hour, minute), _) =>
    let year := if month < current_date.month then current_date.year + 1
                else current_date.year
    if validDateTime year month day hour minute then
      some ⟨year, month, day, hour, minute, 0, 0⟩
    else none

/-! ## CollectionTimeCalculator: `calculate_collection_time`

Timestamps are represented on a linear axis of rational minutes; Python's
`match_time + datetime.timedelta(hours=h)` becomes `match_time + 60 * h`.  The delay
values in the repository (`2.5`, `3.0`, `3.5` hours) are exactly representable both
as Python floats and as rationals, so `ℚ` is a faithful carrier for them. -/

/-- Model of Python `dict.get(key)` / `dict[key]` over an association list (Python
dict keys are unique; the first binding wins). -/
def pyDictGet (d : List (String × ℚ)) (k : String) : Option ℚ :=
  (d.find? (fun p => p.1 = k)).map (·.2)

/-- The default delay table built inside `calculate_collection_time` when `delays`
is `None` (values in hours). -/
def DEFAULT_DELAYS : List (String × ℚ) :=
  [("default", 5/2), ("champions_league", 3), ("cup", 7/2)]

/-- Embedding of `calculate_collection_time` from `utils/date_utils.py`.

`match_time` is a timestamp in rational minutes.  `delays = none` models the Python
default argument `delays=None`, replaced by the built-in table.  The result is
`none` exactly when Python would raise `KeyError` — a lookup miss on a table without
a `"default"` entry. -/
def calculate_collection_time (match_time : ℚ) (competition_type : String)
    (delays : Option (List (String × ℚ))) : Option ℚ :=
  let table := delays.getD DEFAULT_DELAYS
  match pyDictGet table competition_type with
  | some d => some (match_time + 60 * d)
  | none =>
    match pyDictGet table "default" with
    | some d => some (match_time + 60 * d)
    | none => none

/-! ## Data model: `MatchInfo` (`models/match_data.py`) -/

/-- Embedding of the `MatchInfo` dataclass.  Field defaults mirror the Python
dataclass defaults. -/
structure MatchInfo where
  match_id : String
  team : String
  opponent : String
  is_home : Bool
  match_datetime : PyDateTime
  competition_type : String := "default"
  collection_time : Option PyDateTime := none
  stats_url : Option String := none
deriving DecidableEq, Repr

/-! ## Spider row parsing: `TotalCornerSpider.parse_upcoming_matches`

A `MatchRow` is the field-level result of the XPath selectors on one table row;
`.get()` returning no node is `none`.  The spider reads `datetime.datetime.now()`
when filtering (line 83) and again inside `parse_match_datetime`; both reads are
modeled as the single instant `now`. -/

structure MatchRow where
  date_text : Option String
  home_team : Option String
  away_team : Option String
  details_link : Option String
deriving DecidableEq, Repr

/-- The dictionary appended to `self.results` for one upcoming-match row. -/
structure RawMatch where
  match_id : String
  team : String
  opponent : String
  is_home : Bool
  match_datetime : PyDateTime
  stats_url : String
deriving DecidableEq, Repr

/-- Python truthiness of an optional string: `None` and `""` are falsy. -/
def pyTruthyStr : Option String → Bool
  | none => false
  | some s => s != ""

/-- Processing of one row of the team page, lines 75–118 of
`totalcorner_spider.py`; `none` models `continue` (row skipped). -/
def parse_row (team_name base_url : String) (now : PyDateTime) (row : MatchRow) :
    Option RawMatch :=
  match row.date_text with
  | none => none
  | some date_str =>
    if date_str = "" then none
    else
      match parse_match_datetime date_str now with
      | none => none
      | some md =>
        if md.ltb now then none
        else
          match row.home_team, row.away_team with
          | some home, some away =>
            if home = "" || away = "" then none
            else
              let is_home := pyIn (pyLower team_name) (pyLower home)
              let is_away := pyIn (pyLower team_name) (pyLower away)
              if !(is_home || is_away) then none
              else
                match row.details_link with
                | none => none
                | some dl =>
                  if dl = "" then none
                  else
                    some { match_id := lastSlashComponent dl
                           team := team_name
                           opponent := if is_home then away else home
                           is_home := is_home
                           match_datetime := md
                           stats_url := base_url ++ dl }
          | _, _ => none

/-- Embedding of `TotalCornerSpider.parse_upcoming_matches`: the loop appends one
result per row that survives all the `continue` guards. -/
def parse_upcoming_matches (team_name base_url : String) (now : PyDateTime)
    (rows : List MatchRow) : List RawMatch :=
  rows.filterMap (parse_row team_name base_url now)

/-! ## Deduplication and sorting: `lambda_handler` lines 147–156 -/

/-- The handler's duplicate-filter loop, with the `processed_match_ids` set
modeled as a list of already-seen ids. -/
def dedupeLoop : List MatchInfo → List String → List MatchInfo
  | [], _ => []
  | m :: rest, seen =>
    if m.match_id ∈ seen then dedupeLoop rest seen
    else m :: dedupeLoop rest (m.match_id :: seen)

/-- Embedding of the duplicate filter of `lambda_handler` (lines 147–153),
starting from an empty `processed_match_ids` set. -/
def dedupe (matchList : List MatchInfo) : List MatchInfo :=
  dedupeLoop matchList []

/-- Specification-side deduplication, written from the spec's words: the first
record of each `match_id` is kept, every later record sharing an already-seen id is
discarded, and the order of kept records is preserved. -/
def dedupeFirstWins : List MatchInfo → List MatchInfo
  | [] => []
  | m :: rest =>
    m :: dedupeFirstWins (rest.filter (fun r => r.match_id ≠ m.match_id))
termination_by l => l.length
decreasing_by
  simp only [List.length_cons]
  exact Nat.lt_succ_of_le (List.length_filter_le _ _)

/-- The sort key relation of `all_matches.sort(key=lambda x: x.match_datetime)`. -/
def matchLe (a b : MatchInfo) : Prop :=
  a.match_datetime.enc ≤ b.match_datetime.enc

instance : DecidableRel matchLe :=
  fun a b => inferInstanceAs (Decidable (a.match_datetime.enc ≤ b.match_datetime.enc))

instance : IsTotal MatchInfo matchLe :=
  ⟨fun a b => Nat.le_total a.match_datetime.enc b.match_datetime.enc⟩

instance : IsTrans MatchInfo matchLe :=
  ⟨fun _ _ _ hab hbc => Nat.le_trans hab hbc⟩

/-- Embedding of `all_matches.sort(key=lambda x: x.match_datetime)` (line 156).
Python's `list.sort` is a stable sort by the key; a stable sort's output is uniquely
determined by the comparator and the input order, so stable insertion sort is an
exact model. -/
def sortMatches (l : List MatchInfo) : List MatchInfo :=
  List.insertionSort matchLe l

/-! ## Storage gateway: `DynamoDBManager.save_scheduled_matches`

The boto3 batch write is external I/O; its success is abstracted as the `writeOk`
parameter.  The method catches every exception and returns `False`, and returns
`True` without writing when the batch is empty. -/

def save_scheduled_matches (matchList : List MatchInfo) (writeOk : Bool) : Bool :=
  if matchList.isEmpty then true else writeOk

/-! ## Deferred-job rule naming: `create_stats_collection_rule` lines 43–45 -/

/-- Model of `match_info.team.replace(' ', '-')` (single-character pattern). -/
def pyReplaceSpaceDash (s : String) : String :=
  ⟨s.data.map (fun c => if c = ' ' then '-' else c)⟩

/-- The f-string `f"collect-stats-{team.replace(' ', '-')}-{match_id}"`. -/
def rule_name_raw (team match_id : String) : String :=
  "collect-stats-" ++ pyReplaceSpaceDash team ++ "-" ++ match_id

/-- Embedding of the rule-name computation (lines 43–45 of
`schedule_updater.py`).  When the name exceeds 64 characters the source executes
`rule_name[:60] + hash(rule_name)[-4:]`; `hash(rule_name)` is an `int`, and
subscripting an `int` raises `TypeError`, so that branch never produces a name —
it is modeled as `none`. -/
def create_rule_name (team match_id : String) : Option String :=
  let rn := rule_name_raw team match_id
  if rn.length > 64 then none
  else some rn

/-- Embedding of `create_stats_collection_rule`: the function body is wrapped in
`try`/`except`, so the `TypeError` above (like any AWS client failure, abstracted
away here) is caught and the function returns `None`. -/
def create_stats_collection_rule (m : MatchInfo) : Option String :=
  create_rule_name m.team m.match_id

/-! ## Scheduling orchestrator: `lambda_handler` lines 141–180

The model starts after `get_upcoming_matches` returned `matches` and ends at the
handler's return statement.  `writeOk` abstracts whether the DynamoDB batch write
would succeed.  The source never consults the boolean returned by
`save_scheduled_matches`, and the EventBridge loop runs unconditionally. -/

structure HandlerOutcome where
  statusCode : Nat
  matches_found : Nat
  saved : Bool
  savedBatch : List MatchInfo
  registered : List (Option String)
deriving DecidableEq, Repr

/-- Embedding of `lambda_handler` from `lambda_functions/schedule_updater.py`,
lines 141–180: deduplicate, sort, persist the batch, register one EventBridge rule
per match, and return a 200 response.  `saved` records the ignored return value of
`save_scheduled_matches`; `registered` holds `create_stats_collection_rule`'s
result per match (`none` = registration failed).  The Google-Sheets step and the
outer exception handler touch no scheduling state and are omitted. -/
def lambda_handler (matchList : List MatchInfo) (writeOk : Bool) : HandlerOutcome :=
  let all_matches := sortMatches (dedupe matchList)
  let saveResult := save_scheduled_matches all_matches writeOk
  let registered := all_matches.map create_stats_collection_rule
  { statusCode := 200
    matches_found := all_matches.length
    saved := saveResult
    savedBatch := all_matches
    registered := registered }

/-! ## StatisticsExtractor: `TotalCornerSpider.parse_match_statistics`

Inputs are the field-level XPath results of the match detail page.  The score is
the first text node containing `"Score:"`; it is then searched with
`re.search(r"Score:\s*(\d+)\s*-\s*(\d+)", ...)`.  The searcher below scans for the
leftmost match position; maximal munch equals the regex's backtracking because the
character classes at every boundary are disjoint. -/

/-- The XPath field results of a match statistics page. -/
structure StatsPageFields where
  score_texts : List String
  home_shots_on_target : Option String
  away_shots_on_target : Option String
  home_shots_off_target : Option String
  away_shots_off_target : Option String
deriving DecidableEq, Repr

/-- The spider attributes relevant to a statistics-collection job. -/
structure StatsJob where
  match_id : Option String
  team_name : Option String
  opponent : Option String
  is_home : Bool
deriving DecidableEq, Repr

/-- The statistics dictionary appended to `self.results`. -/
structure PyStats where
  match_id : Option String
  team : Option String
  opponent : String
  is_home : Bool
  match_datetime : PyDateTime
  shots : Option Int
  shots_on_target : Option Int
  goals : Int
  source : String
deriving DecidableEq, Repr

/-- Matches a literal string at the head of the list, returning the rest. -/
def dropLit (pat cs : List Char) : Option (List Char) :=
  if pat.isPrefixOf cs then some (cs.drop pat.length) else none

/-- Tries `Score:\s*(\d+)\s*-\s*(\d+)` anchored at the head of the list. -/
def matchScoreAt (cs : List Char) : Option (Nat × Nat) := do
  let cs ← dropLit "Score:".data cs
  let cs := cs.dropWhile Char.isWhitespace
  let h ← digitsVal (cs.takeWhile Char.isDigit)
  let cs := cs.dropWhile Char.isDigit
  let cs := cs.dropWhile Char.isWhitespace
  let cs ← matchLit '-' cs
  let cs := cs.dropWhile Char.isWhitespace
  let a ← digitsVal (cs.takeWhile Char.isDigit)
  some (h, a)

/-- Model of `re.search(r"Score:\s*(\d+)\s*-\s*(\d+)", text)`: leftmost match. -/
def searchScore : List Char → Option (Nat × Nat)
  | [] => none
  | c :: rest =>
    match matchScoreAt (c :: rest) with
    | some r => some r
    | none => searchScore rest

/-- One shots field: `int(text.strip()) if text else None`.  `None` and `""` are
falsy, giving `None`; a present but non-numeric text raises `ValueError` (outer
`some` absent), which aborts the callback so that no record is appended. -/
def shotsField (text : Option String) : Option (Option Int) :=
  match text with
  | none => some none
  | some s => if s = "" then some none else (pyInt s).map some

/-- Lines 158–161 of `totalcorner_spider.py`: `shots` is the sum of the two
shot counts when both are present and `None` otherwise. -/
def combineShots (onV offV : Option Int) : Option Int :=
  match onV, offV with
  | some x, some y => some (x + y)
  | _, _ => none

/-- Model of `self.opponent or 'Unknown'` (Python `or` on a possibly-falsy string). -/
def pyOrUnknown : Option String → String
  | none => "Unknown"
  | some s => if s = "" then "Unknown" else s

/-- Embedding of `TotalCornerSpider.parse_match_statistics` (lines 120–176).

`none` models every path on which no statistics record is appended: no text
containing `"Score:"`, a selected text failing the score regex (both logged
errors followed by `return`), or an uncaught `ValueError` from `int()` on a
malformed shots field.  The dictionary's `match_datetime` is
`datetime.datetime.now()`, modeled as the explicit `now` parameter. -/
def parse_match_statistics (job : StatsJob) (page : StatsPageFields)
    (now : PyDateTime) : Option PyStats :=
  match page.score_texts.find? (fun t => containsSub t.data "Score:".data) with
  | none => none
  | some score_text =>
    match searchScore score_text.data with
    | none => none
    | some (home_score, away_score) =>
      let goals : Int := if job.is_home then home_score else away_score
      match shotsField (if job.is_home then page.home_shots_on_target
                        else page.away_shots_on_target) with
      | none => none
      | some shots_on_target =>
        match shotsField (if job.is_home then page.home_shots_off_target
                          else page.away_shots_off_target) with
        | none => none
        | some shots_off_target =>
          some { match_id := job.match_id
                 team := job.team_name
                 opponent := pyOrUnknown job.opponent
                 is_home := job.is_home
                 match_datetime := now
                 shots := combineShots shots_on_target shots_off_target
                 shots_on_target := shots_on_target
                 goals := goals
                 source := "totalcorner" }

/-! ## Serialization: `MatchInfo.to_dict` / `MatchInfo.from_dict`

Python dictionary values are heterogeneous; they are modeled by `PyValue`.
`vIsoStr d` stands for the string `d.isoformat()`: per the Python documentation,
`datetime.fromisoformat` inverts `isoformat`, and `isoformat` is injective, so the
ISO string is represented by the `PyDateTime` it denotes rather than by its
character sequence. -/

inductive PyValue where
  | vNone
  | vStr (s : String)
  | vBool (b : Bool)
  | vDateTime (d : PyDateTime)
  | vIsoStr (d : PyDateTime)
deriving DecidableEq, Repr

/-- Python truthiness for the dictionary values above (`datetime` objects are
always truthy; an ISO string is never empty). -/
def PyValue.truthy : PyValue → Bool
  | .vNone => false
  | .vStr s => s != ""
  | .vBool b => b
  | .vDateTime _ => true
  | .vIsoStr _ => true

/-- `isinstance(v, str)`. -/
def PyValue.isStr : PyValue → Bool
  | .vStr _ => true
  | .vIsoStr _ => true
  | _ => false

/-- `datetime.datetime.fromisoformat(v)`: succeeds exactly on an ISO string,
returning the datetime it denotes; any other string raises `ValueError`. -/
def pyFromIso : PyValue → Option PyDateTime
  | .vIsoStr d => some d
  | _ => none

/-- The dictionary produced by `MatchInfo.to_dict`, keyed by the same eight
names. -/
structure MatchInfoDict where
  match_id : PyValue
  team : PyValue
  opponent : PyValue
  is_home : PyValue
  match_datetime : PyValue
  competition_type : PyValue
  collection_time : PyValue
  stats_url : PyValue
deriving DecidableEq, Repr

/-- Embedding of `MatchInfo.to_dict` (lines 23–34 of `models/match_data.py`).
`collection_time` uses the truthiness test `if self.collection_time`, which is
true for every `datetime` object. -/
def MatchInfo.to_dict (m : MatchInfo) : MatchInfoDict :=
  { match_id := .vStr m.match_id
    team := .vStr m.team
    opponent := .vStr m.opponent
    is_home := .vBool m.is_home
    match_datetime := .vIsoStr m.match_datetime
    competition_type := .vStr m.competition_type
    collection_time :=
      match m.collection_time with
      | some d => .vIsoStr d
      | none => .vNone
    stats_url :=
      match m.stats_url with
      | some s => .vStr s
      | none => .vNone }

/-- Reads a `PyValue` as a `str`-typed dataclass field.  `vIsoStr` is a string
whose character sequence is not tracked by the model, and a non-string value would
build an ill-typed record (the dataclass performs no runtime check); both fall
outside the typed `MatchInfo` and yield `none`. -/
def PyValue.asStr : PyValue → Option String
  | .vStr s => some s
  | _ => none

/-- Reads a `PyValue` as a `bool`-typed dataclass field. -/
def PyValue.asBool : PyValue → Option Bool
  | .vBool b => some b
  | _ => none

/-- Reads a `PyValue` as a `datetime`-typed dataclass field. -/
def PyValue.asDateTime : PyValue → Option PyDateTime
  | .vDateTime d => some d
  | _ => none

/-- Reads a `PyValue` as an `Optional[datetime]` dataclass field. -/
def PyValue.asOptDateTime : PyValue → Option (Option PyDateTime)
  | .vNone => some none
  | .vDateTime d => some (some d)
  | _ => none

/-- Embedding of `MatchInfo.from_dict` (lines 36–55 of `models/match_data.py`):
convert ISO strings to datetimes where `isinstance(..., str)` holds (with
truthiness guarding `collection_time`), pop `stats_url`, build the record with
`cls(**data)`, then set `stats_url` only when it is truthy.  A `ValueError` from
`fromisoformat`, or a value that would build an ill-typed record, is `none`. -/
def MatchInfo.from_dict (data : MatchInfoDict) : Option MatchInfo := do
  let mdv ←
    if data.match_datetime.isStr then (pyFromIso data.match_datetime).map .vDateTime
    else some data.match_datetime
  let ctv ←
    if data.collection_time.isStr && data.collection_time.truthy then
      (pyFromIso data.collection_time).map PyValue.vDateTime
    else some data.collection_time
  let mid ← data.match_id.asStr
  let team ← data.team.asStr
  let opp ← data.opponent.asStr
  let ih ← data.is_home.asBool
  let md ← mdv.asDateTime
  let comp ← data.competition_type.asStr
  let ct ← ctv.asOptDateTime
  let base : MatchInfo :=
    { match_id := mid, team := team, opponent := opp, is_home := ih
      match_datetime := md, competition_type := comp
      collection_time := ct, stats_url := none }
  if data.stats_url.truthy then
    let su ← data.stats_url.asStr
    some { base with stats_url := some su }
  else
    some base

/-! ## Specification-side predicates

Written from the spec's words (§4.1): the input shape is "exactly two numeric
groups separated by `/` (month, day) followed by whitespace and `HH:MM`", each
group two digits.  `DateShapeExact` is that shape covering the whole string;
`DateShapePre` only requires the string to begin with the shape, permitting
trailing characters. -/

/-- The character list begins with the `MM/DD HH:MM` shape, with group values
`mo`, `dy`, `hr`, `mi`; `rest` is whatever follows. -/
def DateShapePre (cs : List Char) (mo dy hr mi : Nat) : Prop :=
  ∃ (a b c d e f g h : Char) (ws rest : List Char),
    cs = a :: b :: '/' :: c :: d :: (ws ++ e :: f :: ':' :: g :: h :: rest) ∧
    a.isDigit ∧ b.isDigit ∧ c.isDigit ∧ d.isDigit ∧
    e.isDigit ∧ f.isDigit ∧ g.isDigit ∧ h.isDigit ∧
    ws ≠ [] ∧ (∀ w ∈ ws, w.isWhitespace) ∧
    mo = 10 * digitVal a + digitVal b ∧ dy = 10 * digitVal c + digitVal d ∧
    hr = 10 * digitVal e + digitVal f ∧ mi = 10 * digitVal g + digitVal h

/-- The character list is exactly the `MM/DD HH:MM` shape, with group values
`mo`, `dy`, `hr`, `mi`. -/
def DateShapeExact (cs : List Char) (mo dy hr mi : Nat) : Prop :=
  ∃ (a b c d e f g h : Char) (ws : List Char),
    cs = a :: b :: '/' :: c :: d :: (ws ++ [e, f, ':', g, h]) ∧
    a.isDigit ∧ b.isDigit ∧ c.isDigit ∧ d.isDigit ∧
    e.isDigit ∧ f.isDigit ∧ g.isDigit ∧ h.isDigit ∧
    ws ≠ [] ∧ (∀ w ∈ ws, w.isWhitespace) ∧
    mo = 10 * digitVal a + digitVal b ∧ dy = 10 * digitVal c + digitVal d ∧
    hr = 10 * digitVal e + digitVal f ∧ mi = 10 * digitVal g + digitVal h

/-! ## Concrete sample data

Values drawn from the repository's own test fixtures and configuration, used to
instantiate the theorems below on concrete inputs. -/

/-- A reference clock instant: 2024-01-10 00:00. -/
def refNow : PyDateTime := ⟨2024, 1, 10, 0, 0, 0, 0⟩

/-- A fully populated scheduled match (the test fixture of
`test_totalcorner_scraper.py`). -/
def sampleMatch : MatchInfo :=
  { match_id := "12345"
    team := "Barcelona"
    opponent := "Real Madrid"
    is_home := true
    match_datetime := ⟨2024, 4, 5, 21, 0, 0, 0⟩
    competition_type := "default"
    collection_time := some ⟨2024, 4, 5, 23, 30, 0, 0⟩
    stats_url := some "https://www.totalcorner.com/stats/12345" }

/-- Two records with equal `match_datetime` whose ids are in anti-lexical order. -/
def recTiedB : MatchInfo :=
  { sampleMatch with match_id := "B", collection_time := none, stats_url := none }

/-- See `recTiedB`. -/
def recTiedA : MatchInfo :=
  { sampleMatch with match_id := "A", collection_time := none, stats_url := none }

/-- First occurrence of match id "A" (Barcelona's page perspective). -/
def dupA1 : MatchInfo :=
  { sampleMatch with match_id := "A", collection_time := none, stats_url := none }

/-- A distinct match id "B". -/
def dupB : MatchInfo :=
  { sampleMatch with
    match_id := "B"
    team := "Chelsea"
    opponent := "Arsenal"
    collection_time := none
    stats_url := none }

/-- A second record with id "A" but different content (the opposing team's page
perspective of the same fixture). -/
def dupA2 : MatchInfo :=
  { sampleMatch with
    match_id := "A"
    team := "Real Madrid"
    opponent := "Barcelona"
    is_home := false
    collection_time := none
    stats_url := none }

/-- The clock instant 2025-06-15 18:30:00.000000, chosen to coincide exactly with
a parsed match datetime. -/
def nowEq : PyDateTime := ⟨2025, 6, 15, 18, 30, 0, 0⟩

/-- The team-page row of the repository's test fixture. -/
def sampleRow : MatchRow :=
  { date_text := some "06/15 18:30"
    home_team := some "Barcelona"
    away_team := some "Real Madrid"
    details_link := some "/stats/12345" }

/-- `TOTALCORNER_BASE_URL` from `config_totalcorner.py`. -/
def baseURL : String := "https://www.totalcorner.com"

/-- The row result produced from `sampleRow` under clock `nowEq`. -/
def sampleRaw : RawMatch :=
  { match_id := "12345"
    team := "Barcelona"
    opponent := "Real Madrid"
    is_home := true
    match_datetime := nowEq
    stats_url := "https://www.totalcorner.com/stats/12345" }

/-- The `MatchInfo` the handler builds from `sampleRaw` (competition type
defaults to `"default"`). -/
def matchAtNow : MatchInfo :=
  { match_id := "12345"
    team := "Barcelona"
    opponent := "Real Madrid"
    is_home := true
    match_datetime := nowEq
    competition_type := "default"
    collection_time := none
    stats_url := some "https://www.totalcorner.com/stats/12345" }

/-- The statistics page of the repository's test fixture (plus a decoy text that
does not contain `"Score:"`). -/
def samplePage : StatsPageFields :=
  { score_texts := ["Corner: 5 - 3", "Score: 2 - 1"]
    home_shots_on_target := some "5"
    away_shots_on_target := some "3"
    home_shots_off_target := some "7"
    away_shots_off_target := some "4" }

/-- The statistics job of the repository's test fixture (home side). -/
def sampleJob : StatsJob :=
  { match_id := some "12345"
    team_name := some "Barcelona"
    opponent := some "Real Madrid"
    is_home := true }

/-- The wall-clock instant at which the sample statistics collection runs. -/
def sampleNow : PyDateTime := ⟨2024, 4, 5, 23, 30, 0, 0⟩

/-! ## Theorems -/

/-- C2: for every match time `T`, competition tag and delay table with a
`"default"` entry, `calculate_collection_time` returns exactly `T` plus the
table's delay for the tag (in hours, converted to minutes), falls back to the
`"default"` entry when the tag is absent, and a lookup miss is never an error; in
particular the two concrete examples of the spec hold. -/
theorem c2_collection_time_lookup_with_default (T : ℚ) (tag : String)
    (table : List (String × ℚ)) (dv : ℚ)
    (hdef : pyDictGet table "default" = some dv) :
    (∀ v, pyDictGet table tag = some v →
        calculate_collection_time T tag (some table) = some (T + 60 * v)) ∧
    (pyDictGet table tag = none →
        calculate_collection_time T tag (some table) = some (T + 60 * dv)) ∧
    calculate_collection_time T "champions_league"
        (some [("default", 5/2), ("champions_league", 3)]) = some (T + 180) ∧
    calculate_collection_time T "unknown_tag" (some [("default", 5/2)]) =
        some (T + 150) := by
  have h1 : pyDictGet [("default", (5 : ℚ)/2), ("champions_league", 3)]
      "champions_league" = some 3 := rfl
  have h2 : pyDictGet [("default", (5 : ℚ)/2)] "unknown_tag" = none := rfl
  have h3 : pyDictGet [("default", (5 : ℚ)/2)] "default" = some (5/2) := rfl
  refine ⟨fun v hv => ?_, fun hn => ?_, ?_, ?_⟩
  · simp [calculate_collection_time, hv]
  · simp [calculate_collection_time, hn, hdef]
  · simp [calculate_collection_time, h1]
    norm_num
  · simp [calculate_collection_time, h2, h3]
    norm_num

/-- Witness for `c2_collection_time_lookup_with_default` at the repository's
`COLLECTION_DELAYS` table. -/
theorem c2_collection_time_witness :
    calculate_collection_time 0 "cup" (some DEFAULT_DELAYS) = some (0 + 60 * (7/2)) ∧
    calculate_collection_time 0 "bundesliga" (some DEFAULT_DELAYS) =
      some (0 + 60 * (5/2)) :=
  ⟨(c2_collection_time_lookup_with_default 0 "cup" DEFAULT_DELAYS (5/2) rfl).1
      (7/2) rfl,
   (c2_collection_time_lookup_with_default 0 "bundesliga" DEFAULT_DELAYS
      (5/2) rfl).2.1 rfl⟩

/-- C9: evaluation of the deferred-job rule-name computation.  A short name is
returned unchanged, but any team/match-id pair whose combined rule name exceeds
64 characters makes line 45 of `schedule_updater.py` execute
`hash(rule_name)[-4:]`, which raises `TypeError` (an `int` is not subscriptable),
so no name is ever produced on that branch. -/
theorem c9_rule_name_evaluation :
    create_rule_name "Liverpool" "12345" = some "collect-stats-Liverpool-12345" ∧
    create_rule_name "Borussia Moenchengladbach Reserve And Academy Team"
      "1234567890123456789" = none :=
  ⟨rfl, rfl⟩

/-- C4 counterexample: with a failing batch write, the handler still registers a
deferred collection job for the record and still reports HTTP 200. -/
theorem c4_persistence_failure_counterexample :
    (lambda_handler [sampleMatch] false).saved = false ∧
    (lambda_handler [sampleMatch] false).registered =
      [some "collect-stats-Barcelona-12345"] ∧
    (lambda_handler [sampleMatch] false).statusCode = 200 :=
  ⟨rfl, rfl, rfl⟩

/-- C4 amended: the handler never consults the boolean returned by
`save_scheduled_matches`: the registered jobs are identical whether the write
succeeds or fails, one registration is attempted per record of the sorted
deduplicated batch, the response is 200 regardless, and `saved` is exactly the
gateway's (ignored) result. -/
theorem c4_handler_ignores_save_result (ms : List MatchInfo) :
    (lambda_handler ms false).registered = (lambda_handler ms true).registered ∧
    (lambda_handler ms false).statusCode = 200 ∧
    (lambda_handler ms false).registered.length =
      (lambda_handler ms false).savedBatch.length ∧
    (lambda_handler ms false).saved =
      save_scheduled_matches (lambda_handler ms false).savedBatch false := by
  refine ⟨rfl, rfl, ?_, rfl⟩
  simp [lambda_handler]

/-- C5 counterexample: two records with equal `match_datetime` whose ids arrive
in the order "B", "A" are left in that order by the handler's sort, not in the
lexical id order "A", "B" the claim requires. -/
theorem c5_sort_tie_keeps_input_order :
    recTiedB.match_datetime = recTiedA.match_datetime ∧
    recTiedB.match_id = "B" ∧ recTiedA.match_id = "A" ∧
    sortMatches (dedupe [recTiedB, recTiedA]) = [recTiedB, recTiedA] := by
  refine ⟨rfl, rfl, rfl, ?_⟩
  decide

/-- C5 amended: the batch is sorted ascending by `match_datetime`, is a
permutation of its input, and records with equal `match_datetime` (more
generally, any pair already in key order) keep their post-deduplication relative
order — the sort is stable, so the output is a deterministic function of the
input sequence rather than of the record set alone. -/
theorem c5_sort_by_datetime_stable (l : List MatchInfo) :
    List.Sorted matchLe (sortMatches l) ∧ (sortMatches l).Perm l ∧
    ∀ a b, matchLe a b → List.Sublist [a, b] l → List.Sublist [a, b] (sortMatches l) :=
  ⟨List.sorted_insertionSort matchLe l, List.perm_insertionSort matchLe l,
   fun _ _ hab hsub => List.pair_sublist_insertionSort hab hsub⟩

/-- Witness for `c5_sort_by_datetime_stable`: the tied pair of
`c5_sort_tie_keeps_input_order` stays a sublist after sorting. -/
theorem c5_sort_by_datetime_stable_witness :
    List.Sublist [recTiedB, recTiedA] (sortMatches [recTiedB, recTiedA]) :=
  (c5_sort_by_datetime_stable [recTiedB, recTiedA]).2.2 recTiedB recTiedA
    (by decide) (List.Sublist.refl _)

/-- C8 counterexample: `parse_match_datetime` takes no reference time — it reads
the global clock internally — and the same raw string parses to different
timestamps under different clock readings, so a hidden clock access does affect
the output. -/
theorem c8_clock_dependence_counterexample :
    parse_match_datetime "01/05 21:00" ⟨2024, 1, 10, 0, 0, 0, 0⟩ =
      some ⟨2024, 1, 5, 21, 0, 0, 0⟩ ∧
    parse_match_datetime "01/05 21:00" ⟨2024, 6, 10, 0, 0, 0, 0⟩ =
      some ⟨2025, 1, 5, 21, 0, 0, 0⟩ ∧
    parse_match_datetime "01/05 21:00" ⟨2024, 1, 10, 0, 0, 0, 0⟩ ≠
      parse_match_datetime "01/05 21:00" ⟨2024, 6, 10, 0, 0, 0, 0⟩ :=
  ⟨rfl, rfl, by decide⟩

/-- C8 amended: the resolver reads the ambient clock rather than a supplied
reference time, and its output is determined by the raw string together with the
clock's year and month alone: two invocations with the same raw string under
clock readings that agree on year and month return the same result. -/
theorem c8_parse_determined_by_clock_year_month (raw : String)
    (c₁ c₂ : PyDateTime) (hy : c₁.year = c₂.year) (hm : c₁.month = c₂.month) :
    parse_match_datetime raw c₁ = parse_match_datetime raw c₂ := by
  unfold parse_match_datetime
  rw [hy, hm]

/-- Witness for `c8_parse_determined_by_clock_year_month`. -/
theorem c8_parse_determined_witness :
    parse_match_datetime "04/05 21:00" ⟨2024, 1, 10, 0, 0, 0, 0⟩ =
      parse_match_datetime "04/05 21:00" ⟨2024, 1, 31, 23, 59, 59, 999999⟩ :=
  c8_parse_determined_by_clock_year_month "04/05 21:00" _ _ rfl rfl

/-- C10: serialization round-trips — for every `MatchInfo` whose `stats_url` is
`None` or a non-empty string, `from_dict (to_dict m)` rebuilds `m` field by
field, including a `None` `collection_time`. -/
theorem c10_to_dict_from_dict_roundtrip (m : MatchInfo)
    (h : m.stats_url = none ∨ ∃ s, m.stats_url = some s ∧ s ≠ "") :
    MatchInfo.from_dict (MatchInfo.to_dict m) = some m := by
  obtain ⟨mid, team, opp, ih, md, comp, ct, su⟩ := m
  rcases h with h | ⟨s, hs, hne⟩
  · cases h
    cases ct <;> rfl
  · cases hs
    cases ct <;>
      simp [MatchInfo.to_dict, MatchInfo.from_dict, PyValue.truthy, PyValue.isStr,
        pyFromIso, PyValue.asStr, PyValue.asBool, PyValue.asDateTime,
        PyValue.asOptDateTime, hne]

/-- Witness for `c10_to_dict_from_dict_roundtrip` at the sample record. -/
theorem c10_roundtrip_witness :
    MatchInfo.from_dict (MatchInfo.to_dict sampleMatch) = some sampleMatch :=
  c10_to_dict_from_dict_roundtrip sampleMatch
    (Or.inr ⟨"https://www.totalcorner.com/stats/12345", rfl, by decide⟩)

/-- The handler's dedup loop with an arbitrary starting `seen` set equals the
first-wins specification applied to the input with the already-seen ids removed. -/
theorem dedupeLoop_eq_firstWins (l : List MatchInfo) :
    ∀ seen : List String,
      dedupeLoop l seen =
        dedupeFirstWins (l.filter (fun m => decide (m.match_id ∉ seen))) := by
  induction l with
  | nil => intro seen; simp [dedupeLoop, dedupeFirstWins]
  | cons m rest ih =>
    intro seen
    by_cases hm : m.match_id ∈ seen
    · rw [show dedupeLoop (m :: rest) seen = dedupeLoop rest seen from by
        simp [dedupeLoop, hm]]
      rw [ih seen]
      congr 1
      simp [List.filter_cons, hm]
    · rw [show dedupeLoop (m :: rest) seen =
          m :: dedupeLoop rest (m.match_id :: seen) from by simp [dedupeLoop, hm]]
      rw [ih (m.match_id :: seen)]
      have hfil : (m :: rest).filter (fun r => decide (r.match_id ∉ seen)) =
          m :: rest.filter (fun r => decide (r.match_id ∉ seen)) := by
        simp [List.filter_cons, hm]
      rw [hfil, dedupeFirstWins, List.filter_filter]
      congr 1
      congr 1
      apply List.filter_congr
      intro r _
      by_cases h1 : r.match_id = m.match_id <;> by_cases h2 : r.match_id ∈ seen <;>
        simp [h1, h2]

/-- C3: the handler's deduplication equals the first-wins specification — for
each `match_id` exactly the first record is kept, later records sharing a seen id
are discarded, and the relative order of kept records is preserved; in
particular, on `[A1, B, A2]` with `A1`, `A2` sharing an id but differing in
content, the output is `[A1, B]` of length 2, surviving record equal to `A1`. -/
theorem c3_dedupe_first_wins :
    (∀ l : List MatchInfo, dedupe l = dedupeFirstWins l) ∧
    dupA1.match_id = dupA2.match_id ∧ dupA1 ≠ dupA2 ∧
    dedupe [dupA1, dupB, dupA2] = [dupA1, dupB] ∧
    (dedupe [dupA1, dupB, dupA2]).length = 2 := by
  refine ⟨fun l => ?_, rfl, by decide, by decide, by decide⟩
  rw [dedupe, dedupeLoop_eq_firstWins l []]
  congr 1
  simp

/-- C7: statistics extraction.  When the selected score text yields the two
integers `hs - aws`, the produced record takes `goals` from the home score for a
home job and the away score otherwise, both shots fields are read through the
same home/away polarity, `shots` is exactly `shots_on_target + shots_off_target`
when both are present and unknown (`none`) when either is absent — never zero
and never the on-target count alone; with no usable score, no record is
produced. -/
theorem c7_statistics_extraction (job : StatsJob) (page : StatsPageFields)
    (now : PyDateTime) :
    (page.score_texts.find? (fun t => containsSub t.data "Score:".data) = none →
        parse_match_statistics job page now = none) ∧
    (∀ st,
        page.score_texts.find? (fun t => containsSub t.data "Score:".data) = some st →
        searchScore st.data = none → parse_match_statistics job page now = none) ∧
    (∀ st hs aws onV offV,
        page.score_texts.find? (fun t => containsSub t.data "Score:".data) = some st →
        searchScore st.data = some (hs, aws) →
        shotsField (if job.is_home then page.home_shots_on_target
                    else page.away_shots_on_target) = some onV →
        shotsField (if job.is_home then page.home_shots_off_target
                    else page.away_shots_off_target) = some offV →
        parse_match_statistics job page now = some
          { match_id := job.match_id
            team := job.team_name
            opponent := pyOrUnknown job.opponent
            is_home := job.is_home
            match_datetime := now
            shots := combineShots onV offV
            shots_on_target := onV
            goals := if job.is_home then (hs : Int) else (aws : Int)
            source := "totalcorner" } ∧
        ((onV = none ∨ offV = none) →
          (parse_match_statistics job page now).map PyStats.shots = some none)) := by
  refine ⟨fun h1 => ?_, fun st h1 h2 => ?_, fun st hs aws onV offV h1 h2 h3 h4 => ?_⟩
  · simp [parse_match_statistics, h1]
  · simp [parse_match_statistics, h1, h2]
  · have hmain : parse_match_statistics job page now = some
        { match_id := job.match_id
          team := job.team_name
          opponent := pyOrUnknown job.opponent
          is_home := job.is_home
          match_datetime := now
          shots := combineShots onV offV
          shots_on_target := onV
          goals := if job.is_home then (hs : Int) else (aws : Int)
          source := "totalcorner" } := by
      simp only [parse_match_statistics, h1, h2, h3, h4]
    refine ⟨hmain, fun hdisj => ?_⟩
    rw [hmain]
    rcases hdisj with rfl | rfl
    · cases offV <;> simp [combineShots]
    · cases onV <;> simp [combineShots]

/-- Witness for `c7_statistics_extraction` at the repository's test fixture
(`Score: 2 - 1`, on-target 5/3, off-target 7/4, home side). -/
theorem c7_statistics_extraction_witness :
    parse_match_statistics sampleJob samplePage sampleNow = some
      { match_id := some "12345"
        team := some "Barcelona"
        opponent := "Real Madrid"
        is_home := true
        match_datetime := sampleNow
        shots := some 12
        shots_on_target := some 5
        goals := 2
        source := "totalcorner" } :=
  ((c7_statistics_extraction sampleJob samplePage sampleNow).2.2
    "Score: 2 - 1" 2 1 (some 5) (some 7) rfl rfl rfl rfl).1

/-- C6 counterexample: a match whose resolved datetime coincides exactly with the
clock reading — so it is not strictly in the future — passes the spider's filter
(`match_datetime < now` uses `<`, not `<=`) and flows through the handler into
the scheduled batch. -/
theorem c6_exact_now_counterexample :
    parse_match_datetime "06/15 18:30" nowEq = some nowEq ∧
    parse_upcoming_matches "Barcelona" baseURL nowEq [sampleRow] = [sampleRaw] ∧
    matchAtNow.match_datetime = nowEq ∧
    (lambda_handler [matchAtNow] true).savedBatch = [matchAtNow] ∧
    (lambda_handler [matchAtNow] true).registered.length = 1 := by
  refine ⟨rfl, by decide, rfl, by decide, by decide⟩

/-- C6 amended: the spider drops a row exactly when its resolved datetime is
strictly before the clock reading — a match datetime equal to "now" is kept —
and the orchestrator re-applies no time validation: its persisted batch is a
permutation of the deduplicated input, whatever the records' datetimes. -/
theorem c6_strictly_past_filter (team base : String) (now : PyDateTime)
    (row : MatchRow) (ds : String) (md : PyDateTime)
    (hds : row.date_text = some ds) (hne : ds ≠ "")
    (hmd : parse_match_datetime ds now = some md) :
    (md.ltb now = true → parse_row team base now row = none) ∧
    (md.ltb now = false →
      ∀ home away dl, row.home_team = some home → row.away_team = some away →
        home ≠ "" → away ≠ "" →
        (pyIn (pyLower team) (pyLower home) ||
          pyIn (pyLower team) (pyLower away)) = true →
        row.details_link = some dl → dl ≠ "" →
        ∃ r, parse_row team base now row = some r ∧ r.match_datetime = md) ∧
    (∀ (ms : List MatchInfo) (wOk : Bool),
      ((lambda_handler ms wOk).savedBatch).Perm (dedupe ms)) := by
  refine ⟨fun hlt => ?_, fun hflt home away dl hh ha hhne hane hpol hdl hdlne => ?_,
    fun ms wOk => List.perm_insertionSort matchLe (dedupe ms)⟩
  · simp [parse_row, hds, hne, hmd, hlt]
  · refine ⟨{ match_id := lastSlashComponent dl
              team := team
              opponent := if pyIn (pyLower team) (pyLower home) then away else home
              is_home := pyIn (pyLower team) (pyLower home)
              match_datetime := md
              stats_url := base ++ dl }, ?_, rfl⟩
    simp [parse_row, hds, hne, hmd, hflt, hh, ha, hhne, hane, hpol, hdl, hdlne]

/-- Witness for `c6_strictly_past_filter`: one minute past the match start the
row is dropped; at the exact match start it is kept. -/
theorem c6_strictly_past_filter_witness :
    parse_row "Barcelona" baseURL ⟨2025, 6, 15, 18, 31, 0, 0⟩ sampleRow = none ∧
    (parse_row "Barcelona" baseURL nowEq sampleRow).isSome = true := by
  constructor
  · exact (c6_strictly_past_filter "Barcelona" baseURL ⟨2025, 6, 15, 18, 31, 0, 0⟩
      sampleRow "06/15 18:30" ⟨2025, 6, 15, 18, 30, 0, 0⟩ rfl (by decide) rfl).1
      (by decide)
  · obtain ⟨r, hr, -⟩ := (c6_strictly_past_filter "Barcelona" baseURL nowEq
      sampleRow "06/15 18:30" nowEq rfl (by decide) rfl).2.1 (by decide)
      "Barcelona" "Real Madrid" "/stats/12345" rfl rfl (by decide) (by decide)
      (by decide) rfl (by decide)
    rw [hr]
    rfl

/-- A decimal digit character is not a whitespace character. -/
theorem digit_not_whitespace (c : Char) (h : c.isDigit = true) :
    c.isWhitespace = false := by
  cases hw : c.isWhitespace with
  | false => rfl
  | true =>
    exfalso
    have h4 := hw
    simp only [Char.isWhitespace, Bool.or_eq_true, decide_eq_true_eq] at h4
    rcases h4 with ((rfl | rfl) | rfl) | rfl <;> exact absurd h (by decide)

/-- `takeWhile`/`dropWhile` on a block of satisfying elements followed by a
failing head. -/
theorem takeWhile_append_not (p : Char → Bool) (ws : List Char) (e : Char)
    (l : List Char) (hws : ∀ w ∈ ws, p w = true) (he : p e = false) :
    (ws ++ e :: l).takeWhile p = ws ∧ (ws ++ e :: l).dropWhile p = e :: l := by
  induction ws with
  | nil => simp [List.takeWhile_cons, List.dropWhile_cons, he]
  | cons w t ih =>
    have hw : p w = true := hws w (by simp)
    obtain ⟨h1, h2⟩ := ih (fun x hx => hws x (by simp [hx]))
    simp [List.takeWhile_cons, List.dropWhile_cons, hw, h1, h2]

/-- The regex matcher accepts every character list that begins with the
`MM/DD HH:MM` shape, yielding the group values and the trailing rest. -/
theorem reMatchDateCore_of_shape (a b c d e f g h : Char) (ws rest : List Char)
    (ha : a.isDigit = true) (hb : b.isDigit = true) (hc : c.isDigit = true)
    (hd : d.isDigit = true) (he : e.isDigit = true) (hf : f.isDigit = true)
    (hg : g.isDigit = true) (hh : h.isDigit = true)
    (hwsne : ws ≠ []) (hws : ∀ w ∈ ws, w.isWhitespace = true) :
    reMatchDateCore
        (a :: b :: '/' :: c :: d :: (ws ++ e :: f :: ':' :: g :: h :: rest)) =
      some ((10 * digitVal a + digitVal b, 10 * digitVal c + digitVal d,
        10 * digitVal e + digitVal f, 10 * digitVal g + digitVal h), rest) := by
  obtain ⟨ht, hdw⟩ := takeWhile_append_not Char.isWhitespace ws e
    (f :: ':' :: g :: h :: rest) hws (digit_not_whitespace e he)
  have hie : ((ws ++ e :: f :: ':' :: g :: h :: rest).takeWhile
      Char.isWhitespace).isEmpty = false := by
    rw [ht]
    cases ws with
    | nil => exact absurd rfl hwsne
    | cons w t => rfl
  have hws1 : matchWs1 (ws ++ e :: f :: ':' :: g :: h :: rest) =
      some (e :: f :: ':' :: g :: h :: rest) := by
    rw [matchWs1, hie, if_neg (by simp), hdw]
  simp [reMatchDateCore, matchTwoDigits, matchLit, ha, hb, hc, hd, he, hf, hg, hh,
    hws1]

/-- Inversion of `matchTwoDigits`. -/
theorem matchTwoDigits_some (cs : List Char) (v : Nat) (rest : List Char)
    (h : matchTwoDigits cs = some (v, rest)) :
    ∃ a b, cs = a :: b :: rest ∧ a.isDigit = true ∧ b.isDigit = true ∧
      v = 10 * digitVal a + digitVal b := by
  match cs with
  | [] => simp [matchTwoDigits] at h
  | [a] => simp [matchTwoDigits] at h
  | a :: b :: t =>
    by_cases hab : (a.isDigit && b.isDigit) = true
    · rw [matchTwoDigits, if_pos hab] at h
      obtain ⟨hv, ht⟩ := Prod.mk.injEq .. ▸ Option.some.injEq .. ▸ h
      obtain ⟨ha, hb⟩ := Bool.and_eq_true_iff.mp hab
      exact ⟨a, b, by rw [ht], ha, hb, hv.symm⟩
    · rw [matchTwoDigits, if_neg hab] at h
      exact absurd h (by simp)

/-- Inversion of `matchLit`. -/
theorem matchLit_some (ch : Char) (cs rest : List Char)
    (h : matchLit ch cs = some rest) : cs = ch :: rest := by
  match cs with
  | [] => simp [matchLit] at h
  | x :: t =>
    by_cases hx : x = ch
    · rw [matchLit, if_pos hx] at h
      obtain rfl := Option.some.inj h
      rw [hx]
    · rw [matchLit, if_neg hx] at h
      exact absurd h (by simp)

/-- Inversion of `matchWs1`. -/
theorem matchWs1_some (cs rest : List Char) (h : matchWs1 cs = some rest) :
    cs.takeWhile Char.isWhitespace ≠ [] ∧
      rest = cs.dropWhile Char.isWhitespace := by
  rw [matchWs1] at h
  by_cases hie : (cs.takeWhile Char.isWhitespace).isEmpty = true
  · rw [if_pos hie] at h
    exact absurd h (by simp)
  · rw [if_neg hie] at h
    refine ⟨fun hnil => hie (by rw [hnil]; rfl), (Option.some.injEq .. ▸ h).symm⟩

/-- Every successful run of the regex matcher exhibits the `MM/DD HH:MM` shape
at the head of its input. -/
theorem reMatchDateCore_shape (cs : List Char) (mo dy hr mi : Nat)
    (rest : List Char)
    (h : reMatchDateCore cs = some ((mo, dy, hr, mi), rest)) :
    DateShapePre cs mo dy hr mi := by
  unfold reMatchDateCore at h
  simp only [Option.bind_eq_bind] at h
  cases h1 : matchTwoDigits cs with
  | none => rw [h1] at h; exact absurd h (by simp)
  | some p1 =>
  obtain ⟨v1, t1⟩ := p1
  rw [h1, Option.some_bind] at h
  cases h2 : matchLit '/' t1 with
  | none => rw [h2] at h; exact absurd h (by simp)
  | some t2 =>
  rw [h2, Option.some_bind] at h
  cases h3 : matchTwoDigits t2 with
  | none => rw [h3] at h; exact absurd h (by simp)
  | some p2 =>
  obtain ⟨v2, t3⟩ := p2
  rw [h3, Option.some_bind] at h
  cases h4 : matchWs1 t3 with
  | none => rw [h4] at h; exact absurd h (by simp)
  | some t4 =>
  rw [h4, Option.some_bind] at h
  cases h5 : matchTwoDigits t4 with
  | none => rw [h5] at h; exact absurd h (by simp)
  | some p3 =>
  obtain ⟨v3, t5⟩ := p3
  rw [h5, Option.some_bind] at h
  cases h6 : matchLit ':' t5 with
  | none => rw [h6] at h; exact absurd h (by simp)
  | some t6 =>
  rw [h6, Option.some_bind] at h
  cases h7 : matchTwoDigits t6 with
  | none => rw [h7] at h; exact absurd h (by simp)
  | some p4 =>
  obtain ⟨v4, t7⟩ := p4
  rw [h7, Option.some_bind] at h
  simp only [Option.some.injEq, Prod.mk.injEq] at h
  obtain ⟨⟨hmo, hdy, hhr, hmi⟩, hrest⟩ := h
  obtain ⟨a, b, hcs1, ha, hb, hv1⟩ := matchTwoDigits_some cs v1 t1 h1
  have hcs2 := matchLit_some '/' t1 t2 h2
  obtain ⟨c, d, hcs3, hc, hd, hv2⟩ := matchTwoDigits_some t2 v2 t3 h3
  obtain ⟨hwne, ht4⟩ := matchWs1_some t3 t4 h4
  obtain ⟨e, f, hcs5, he, hf, hv3⟩ := matchTwoDigits_some t4 v3 t5 h5
  have hcs6 := matchLit_some ':' t5 t6 h6
  obtain ⟨g, h8, hcs7, hg, hh8, hv4⟩ := matchTwoDigits_some t6 v4 t7 h7
  refine ⟨a, b, c, d, e, f, g, h8, t3.takeWhile Char.isWhitespace, rest,
    ?_, ha, hb, hc, hd, he, hf, hg, hh8, hwne,
    fun w hw => List.mem_takeWhile_imp hw, ?_, ?_, ?_, ?_⟩
  · have ht3 : t3 = t3.takeWhile Char.isWhitespace ++
        e :: f :: ':' :: g :: h8 :: rest := by
      conv_lhs => rw [← List.takeWhile_append_dropWhile (p := Char.isWhitespace)
        (l := t3)]
      rw [← ht4, hcs5, hcs6, hcs7, hrest]
    rw [hcs1, hcs2, hcs3]
    exact congrArg (fun l => a :: b :: '/' :: c :: d :: l) ht3
  · rw [← hmo]; exact hv1
  · rw [← hdy]; exact hv2
  · rw [← hhr]; exact hv3
  · rw [← hmi]; exact hv4

/-- C1 counterexample: `"04/05 21:00:59"` is not of the exact `MM/DD HH:MM`
shape (there are trailing characters after the minute group), yet the resolver
returns a timestamp rather than a `ParseError` — the source's `re.match` anchors
only at the start of the string. -/
theorem c1_trailing_text_counterexample :
    parse_match_datetime "04/05 21:00:59" refNow = some ⟨2024, 4, 5, 21, 0, 0, 0⟩ ∧
    ¬ ∃ mo dy hr mi, DateShapeExact "04/05 21:00:59".data mo dy hr mi := by
  refine ⟨rfl, ?_⟩
  rintro ⟨mo, dy, hr, mi, a, b, c, d, e, f, g, h, ws, heq, ha, hb, hc, hd, he,
    hf, hg, hh, hwsne, hws, hmo, hdy, hhr, hmi⟩
  have hv : "04/05 21:00:59".data =
      ['0', '4', '/', '0', '5', ' ', '2', '1', ':', '0', '0', ':', '5', '9'] := rfl
  rw [hv] at heq
  have hlen := congrArg List.length heq
  simp [List.length_append] at hlen
  rcases ws with _ | ⟨w1, _ | ⟨w2, _ | ⟨w3, _ | ⟨w4, _ | ⟨w5, tl⟩⟩⟩⟩⟩ <;>
    simp at hlen
  · have h6 := congrArg (fun l => l[6]?) heq
    simp at h6
    subst h6
    have hw2 := hws '2' (by simp)
    exact absurd hw2 (by decide)

/-- C1: for every raw string whose stripped form is exactly of the
`MM/DD HH:MM` shape, the resolver returns a timestamp whose month, day, hour
and minute equal the parsed groups, with the year equal to the clock's year when
the parsed month is at least the clock's month and to the clock's year plus one
otherwise — unless the resulting calendar date (or time) is invalid, in which
case it returns `None`; and for every raw string whose stripped form does not
even begin with that shape, it returns `None`.  (The claim's converse — that any
input not exactly of the shape is rejected — fails; see the counterexample.) -/
theorem c1_resolver_amended :
    (∀ (s : String) (now : PyDateTime) (mo dy hr mi : Nat),
        DateShapeExact (pyStrip s.data) mo dy hr mi →
        parse_match_datetime s now =
          if validDateTime (if mo < now.month then now.year + 1 else now.year)
              mo dy hr mi then
            some ⟨(if mo < now.month then now.year + 1 else now.year),
              mo, dy, hr, mi, 0, 0⟩
          else none) ∧
    (∀ (s : String) (now : PyDateTime),
        (¬ ∃ mo dy hr mi, DateShapePre (pyStrip s.data) mo dy hr mi) →
        parse_match_datetime s now = none) := by
  constructor
  · rintro s now mo dy hr mi
      ⟨a, b, c, d, e, f, g, h, ws, heq, ha, hb, hc, hd, he, hf, hg, hh, hwsne,
        hws, hmo, hdy, hhr, hmi⟩
    have hcore := reMatchDateCore_of_shape a b c d e f g h ws [] ha hb hc hd he
      hf hg hh hwsne hws
    unfold parse_match_datetime
    rw [heq, hcore, ← hmo, ← hdy, ← hhr, ← hmi]
  · intro s now hnex
    cases hcore : reMatchDateCore (pyStrip s.data) with
    | none => unfold parse_match_datetime; rw [hcore]
    | some pr =>
      obtain ⟨⟨mo, dy, hr, mi⟩, rest⟩ := pr
      exact absurd ⟨mo, dy, hr, mi, reMatchDateCore_shape _ mo dy hr mi rest hcore⟩
        hnex

/-- Witness for `c1_resolver_amended`: a shaped valid input resolves with the
reference year (month 4 ≥ reference month 1), a shaped but invalid calendar date
(February 30) is a `ParseError`, and an unshaped input is a `ParseError`. -/
theorem c1_resolver_amended_witness :
    parse_match_datetime "04/05 21:00" refNow = some ⟨2024, 4, 5, 21, 0, 0, 0⟩ ∧
    parse_match_datetime "02/30 12:00" refNow = none ∧
    parse_match_datetime "Invalid date" refNow = none := by
  refine ⟨?_, ?_, ?_⟩
  · exact c1_resolver_amended.1 "04/05 21:00" refNow 4 5 21 0
      ⟨'0', '4', '0', '5', '2', '1', '0', '0', [' '], rfl, rfl, rfl, rfl, rfl,
        rfl, rfl, rfl, rfl, by decide, by decide, rfl, rfl, rfl, rfl⟩
  · exact c1_resolver_amended.1 "02/30 12:00" refNow 2 30 12 0
      ⟨'0', '2', '3', '0', '1', '2', '0', '0', [' '], rfl, rfl, rfl, rfl, rfl,
        rfl, rfl, rfl, rfl, by decide, by decide, rfl, rfl, rfl, rfl⟩
  · refine c1_resolver_amended.2 "Invalid date" refNow ?_
    rintro ⟨mo, dy, hr, mi, a, b, c, d, e, f, g, h, ws, rest, heq, -⟩
    have hv : pyStrip "Invalid date".data =
        ['I', 'n', 'v', 'a', 'l', 'i', 'd', ' ', 'd', 'a', 't', 'e'] := rfl
    rw [hv] at heq
    simp only [List.cons.injEq] at heq
    obtain ⟨-, -, hbad, -⟩ := heq
    exact absurd hbad (by decide)

end Soccer
